import Mathlib

set_option maxRecDepth 8000

/-!
# Verification of the Monk Bot divergence-detection core

Shallow embedding of the core of `bot.py` / `config.py` (BTC/ETH divergence
alert bot): price history store, lookback resolver, return calculator,
freshness check, signal state machine, display formatting and the Telegram
command handlers.

Modelling conventions:
* `datetime` / `timedelta` values are modelled as exact rational numbers of
  seconds; Python comparisons on them are exact, so this is faithful.
* Python `Decimal` values are modelled as exact rationals.  Decimal
  arithmetic carries 28 significant digits; every concrete Decimal
  computation appearing in a theorem below stays within that precision, so
  at those inputs the rational model coincides with Python `Decimal`.
* Python `float` is IEEE-754 binary64.  The conversion `float(decimal)` is
  modelled by `floatOfRat`, which rounds a rational to the nearest binary64
  value (ties to even).  The model covers the normal range (it ignores
  overflow and subnormals), which suffices for the percentage magnitudes
  (0.01 .. 20) involved here.  Comparisons between floats are exact
  comparisons of the represented rational values.
* Global mutable state (`price_history`, `current_mode`, `active_strategy`,
  `settings`) is passed explicitly; functions that send Telegram messages
  return the list of replies they would send.
-/

namespace MonkBot

attribute [local semireducible] Rat.mul Rat.inv Rat.add Rat.sub Rat.ofScientific

/-! ## config.py constants -/

/-- `SCAN_INTERVAL_SECONDS = 300` (config.py). -/
def SCAN_INTERVAL_SECONDS : ℤ := 300

/-- `FRESHNESS_THRESHOLD_MINUTES = 10` (config.py). -/
def FRESHNESS_THRESHOLD_MINUTES : ℚ := 10

/-- `ENTRY_THRESHOLD = 2.0` (config.py); the float 2.0 is exactly 2. -/
def ENTRY_THRESHOLD : ℚ := 2

/-- `EXIT_THRESHOLD = 0.5` (config.py); the float 0.5 is exactly 1/2. -/
def EXIT_THRESHOLD : ℚ := 1/2

/-- `INVALIDATION_THRESHOLD = 4.0` (config.py); the float 4.0 is exactly 4. -/
def INVALIDATION_THRESHOLD : ℚ := 4

/-- `DEFAULT_LOOKBACK_HOURS = 1` (bot.py). -/
def DEFAULT_LOOKBACK_HOURS : ℤ := 1

/-- `HISTORY_BUFFER_MINUTES = 30` (bot.py). -/
def HISTORY_BUFFER_MINUTES : ℚ := 30

/-! ## Data structures (bot.py) -/

/-- `class Mode(Enum)` (bot.py). -/
inductive Mode where
  | SCAN : Mode
  | TRACK : Mode
deriving DecidableEq, Repr

/-- `class Strategy(Enum)` (bot.py): S1 = long BTC / short ETH,
S2 = long ETH / short BTC. -/
inductive Strategy where
  | S1 : Strategy
  | S2 : Strategy
deriving DecidableEq, Repr

/-- `class PricePoint(NamedTuple)` (bot.py): timestamp (seconds) and the two
Decimal prices, as exact rationals. -/
structure PricePoint where
  timestamp : ℚ
  btc : ℚ
  eth : ℚ
deriving DecidableEq, Repr

/-- The alert kinds emitted by `evaluate_and_transition` via `send_alert`
(`build_entry_message` / `build_exit_message` / `build_invalidation_message`). -/
inductive SignalEvent where
  | ENTRY : Strategy → SignalEvent
  | EXIT : SignalEvent
  | INVALIDATION : Strategy → SignalEvent
deriving DecidableEq, Repr

/-- The pair of globals `current_mode` / `active_strategy` (bot.py). -/
structure SignalState where
  current_mode : Mode
  active_strategy : Option Strategy
deriving DecidableEq, Repr

/-- Initial global state: `current_mode = Mode.SCAN`,
`active_strategy = None` (bot.py, module level). -/
def initialSignalState : SignalState := ⟨Mode.SCAN, none⟩

/-- The mutable `settings` dict (bot.py).  Threshold values are Python
floats; their exact rational values are stored. -/
structure Settings where
  scan_interval : ℤ
  entry_threshold : ℚ
  exit_threshold : ℚ
  invalidation_threshold : ℚ
  lookback_hours : ℤ
deriving DecidableEq, Repr

/-- The initial `settings` dict contents (bot.py, module level). -/
def defaultSettings : Settings :=
  { scan_interval := SCAN_INTERVAL_SECONDS
    entry_threshold := ENTRY_THRESHOLD
    exit_threshold := EXIT_THRESHOLD
    invalidation_threshold := INVALIDATION_THRESHOLD
    lookback_hours := DEFAULT_LOOKBACK_HOURS }

/-! ## Binary64 rounding model

`evaluate_and_transition` converts the Decimal gap with `float(gap)` before
comparing it to the thresholds, and `format_value` converts with
`float(value)` before clamping and formatting.  `floatOfRat` models that
conversion: round to nearest binary64, ties to even (normal range). -/

/-- `2 ^ k` as a rational, for an integer exponent `k`. -/
def twoPow : ℤ → ℚ
  | Int.ofNat n => ((2 ^ n : ℕ) : ℚ)
  | Int.negSucc n => 1 / ((2 ^ (n + 1) : ℕ) : ℚ)

/-- Binary logarithm with explicit fuel (structural recursion, so that the
kernel can evaluate it on numerals). -/
def log2fuel : ℕ → ℕ → ℕ
  | 0, _ => 0
  | fuel + 1, n => if 2 ≤ n then log2fuel fuel (n / 2) + 1 else 0

/-- `⌊log₂ n⌋` for `n < 2 ^ 1024` (binary64 overflows past `2 ^ 1024`, so
this covers the whole modelled range). -/
def natLog2 (n : ℕ) : ℕ := log2fuel 1024 n

/-- `⌊log₂ q⌋` for a positive rational `q`: the `e` with
`2 ^ e ≤ q < 2 ^ (e+1)`. -/
def floorLog2 (q : ℚ) : ℤ :=
  let k : ℤ := (natLog2 q.num.toNat : ℤ) - (natLog2 q.den : ℤ)
  if q < twoPow k then k - 1 else k

/-- Round a nonnegative rational to the nearest integer, ties to even. -/
def roundHalfEven (m : ℚ) : ℤ :=
  let f : ℤ := m.num / (m.den : ℤ)
  let r := m - (f : ℚ)
  if r < 1/2 then f
  else if 1/2 < r then f + 1
  else if f % 2 = 0 then f else f + 1

/-- The binary64 value nearest to `q` (ties to even), as an exact rational:
the model of Python `float(q)` for `q` in the normal range
(`2 ^ (-1022) ≤ |q| < 2 ^ 1024`; the bot only converts percentage-sized
quantities, far inside that range). -/
def floatOfRat (q : ℚ) : ℚ :=
  if q = 0 then 0
  else
    let s : ℚ := if q < 0 then -1 else 1
    let a := |q|
    let e := floorLog2 a - 52
    let m := roundHalfEven (a * twoPow (-e))
    s * (m : ℚ) * twoPow e

/-! ## Value formatting (bot.py `format_value`) -/

/-- Python `f"{x:.1f}"` for a nonnegative binary64 value `x` (given as its
exact rational): round `x` to one decimal digit (nearest, ties to even, on
the exact value, which is what CPython float formatting does) and print the
digits. -/
def fmtOneDecAbs (x : ℚ) : String :=
  let n := (roundHalfEven (x * 10)).toNat
  toString (n / 10) ++ "." ++ toString (n % 10)

/-- Python `f"{x:.1f}"` for a binary64 value `x`: the sign comes from the
value (so a negative value rounding to zero prints as `-0.0`). -/
def fmtOneDec (x : ℚ) : String :=
  if x < 0 then "-" ++ fmtOneDecAbs (-x) else fmtOneDecAbs x

/-- `format_value` (bot.py): `float_val = float(value)`; clamp
`abs(float_val) < 0.05` to `"+0.0"`; otherwise format with explicit sign
and one decimal place.  The Python literal `0.05` denotes the binary64
value `floatOfRat (1/20)`. -/
def format_value (value : ℚ) : String :=
  let float_val := floatOfRat value
  if |float_val| < floatOfRat (1/20) then "+0.0"
  else if 0 ≤ float_val then "+" ++ fmtOneDec float_val
  else fmtOneDec float_val

/-! ## Price history management (bot.py) -/

/-- `append_price` (bot.py): append a point at the tail of the history. -/
def append_price (history : List PricePoint) (timestamp btc eth : ℚ) :
    List PricePoint :=
  history ++ [⟨timestamp, btc, eth⟩]

/-- `prune_history` (bot.py): keep exactly the points with
`timestamp >= now - timedelta(hours=lookback, minutes=30)`. -/
def prune_history (lookback_hours : ℤ) (history : List PricePoint)
    (now : ℚ) : List PricePoint :=
  let cutoff := now - ((lookback_hours : ℚ) * 3600 + HISTORY_BUFFER_MINUTES * 60)
  history.filter (fun p => cutoff ≤ p.timestamp)

/-- The loop of `get_lookback_price` (bot.py): scan the history keeping the
point with the smallest `|timestamp - target_time|` seen so far, starting
from the 30-minute tolerance; only a strictly smaller difference replaces
the current best. -/
def lookbackScan (target : ℚ) :
    List PricePoint → Option PricePoint → ℚ → Option PricePoint
  | [], best, _ => best
  | p :: rest, best, best_diff =>
    if |p.timestamp - target| < best_diff then
      lookbackScan target rest (some p) |p.timestamp - target|
    else
      lookbackScan target rest best best_diff

/-- `get_lookback_price` (bot.py): the point closest to
`now - timedelta(hours=lookback)`, within a 30-minute tolerance. -/
def get_lookback_price (lookback_hours : ℤ) (history : List PricePoint)
    (now : ℚ) : Option PricePoint :=
  let target_time := now - (lookback_hours : ℚ) * 3600
  lookbackScan target_time history none (30 * 60)

/-- `|timestamp - target|`, the quantity minimised by `get_lookback_price`. -/
def lbDist (target : ℚ) (p : PricePoint) : ℚ := |p.timestamp - target|

/-! ## Return calculation and freshness (bot.py) -/

/-- `compute_returns` (bot.py): percentage changes and their gap.  Decimal
arithmetic is modelled as exact rational arithmetic; at every input used in
a theorem below the Decimal computation (28 significant digits) is exact,
so the two agree there. -/
def compute_returns (btc_now eth_now btc_prev eth_prev : ℚ) : ℚ × ℚ × ℚ :=
  let btc_change := (btc_now - btc_prev) / btc_prev * 100
  let eth_change := (eth_now - eth_prev) / eth_prev * 100
  (btc_change, eth_change, eth_change - btc_change)

/-- `is_data_fresh` (bot.py): both ages must not exceed
`timedelta(minutes=FRESHNESS_THRESHOLD_MINUTES)`; the comparison is strict
`>` for staleness, so an age exactly equal to the threshold is fresh. -/
def is_data_fresh (now btc_updated eth_updated : ℚ) : Bool :=
  let threshold := FRESHNESS_THRESHOLD_MINUTES * 60
  if threshold < now - btc_updated then false
  else if threshold < now - eth_updated then false
  else true

/-! ## State machine (bot.py `evaluate_and_transition`)

The source converts the Decimal gap to a binary float first
(`gap_float = float(gap)`, bot.py line 680) and compares `gap_float`
against the float thresholds; `floatOfRat` models that conversion.
The `btc_ret` / `eth_ret` arguments only feed the alert message text and
are omitted; the emitted alert is modelled as a `SignalEvent`. -/

def evaluate_and_transition (st : Settings) (s : SignalState) (gap : ℚ) :
    SignalState × Option SignalEvent :=
  let gap_float := floatOfRat gap
  match s.current_mode with
  | Mode.SCAN =>
    if st.entry_threshold ≤ gap_float then
      (⟨Mode.TRACK, some Strategy.S1⟩, some (SignalEvent.ENTRY Strategy.S1))
    else if gap_float ≤ -st.entry_threshold then
      (⟨Mode.TRACK, some Strategy.S2⟩, some (SignalEvent.ENTRY Strategy.S2))
    else (s, none)
  | Mode.TRACK =>
    if |gap_float| ≤ st.exit_threshold then
      (⟨Mode.SCAN, none⟩, some SignalEvent.EXIT)
    else if s.active_strategy = some Strategy.S1 ∧
        st.invalidation_threshold ≤ gap_float then
      (⟨Mode.SCAN, none⟩, some (SignalEvent.INVALIDATION Strategy.S1))
    else if s.active_strategy = some Strategy.S2 ∧
        gap_float ≤ -st.invalidation_threshold then
      (⟨Mode.SCAN, none⟩, some (SignalEvent.INVALIDATION Strategy.S2))
    else (s, none)

/-- Spec-side reference machine for the refinement comparison: identical
transition logic, but the threshold comparisons are applied to the exact
gap value instead of its binary64 conversion ("the state transition decided
by comparing the exact rational gap against the thresholds"). -/
def evaluateExactGap (st : Settings) (s : SignalState) (gap : ℚ) :
    SignalState × Option SignalEvent :=
  match s.current_mode with
  | Mode.SCAN =>
    if st.entry_threshold ≤ gap then
      (⟨Mode.TRACK, some Strategy.S1⟩, some (SignalEvent.ENTRY Strategy.S1))
    else if gap ≤ -st.entry_threshold then
      (⟨Mode.TRACK, some Strategy.S2⟩, some (SignalEvent.ENTRY Strategy.S2))
    else (s, none)
  | Mode.TRACK =>
    if |gap| ≤ st.exit_threshold then
      (⟨Mode.SCAN, none⟩, some SignalEvent.EXIT)
    else if s.active_strategy = some Strategy.S1 ∧
        st.invalidation_threshold ≤ gap then
      (⟨Mode.SCAN, none⟩, some (SignalEvent.INVALIDATION Strategy.S1))
    else if s.active_strategy = some Strategy.S2 ∧
        gap ≤ -st.invalidation_threshold then
      (⟨Mode.SCAN, none⟩, some (SignalEvent.INVALIDATION Strategy.S2))
    else (s, none)

/-- The invariant of §3 of the spec: `active_strategy == NONE` iff
`mode == SCAN`. -/
def signalInvariant (s : SignalState) : Prop :=
  s.active_strategy = none ↔ s.current_mode = Mode.SCAN

/-! ## Telegram command handling (bot.py)

The network layer (`get_telegram_updates`, `send_reply`) is external; a
processed update is modelled by its relevant message fields and the replies
a handler would send are returned as a list of strings.  Python `int(...)`
and `float(...)` string parsing are external library behaviour and are
passed in as parameters (`none` models the `ValueError` branch).  Reply
texts that interpolate runtime values are abbreviated to their static
prefix: no claim depends on reply contents, only on whether a reply is
sent and on how the state changes. -/

/-- The fields of a Telegram update read by `process_commands`:
`message.chat.id`, `message.from.id` (both via `str(...)`) and
`message.text`. -/
structure Update where
  chat_id : String
  user_id : String
  text : String
deriving DecidableEq, Repr

/-- The full mutable state a command handler can touch: the `settings`
dict, `price_history`, and the signal globals (which no handler writes). -/
structure BotState where
  settings : Settings
  price_history : List PricePoint
  current_mode : Mode
  active_strategy : Option Strategy
deriving DecidableEq, Repr

/-- Model of Python `text.split()` restricted to blanks (Telegram command
arguments are space-separated): split on runs of spaces, dropping empty
pieces. -/
def splitWsAux : List Char → List Char → List String
  | [], [] => []
  | [], acc => [String.mk acc.reverse]
  | c :: cs, acc =>
    if c = ' ' then
      if acc = [] then splitWsAux cs []
      else String.mk acc.reverse :: splitWsAux cs []
    else splitWsAux cs (c :: acc)

/-- Python `text.split()` (whitespace tokenisation). -/
def pySplit (s : String) : List String := splitWsAux s.data []

/-- Python `s.lower()` (ASCII case folding suffices for command words). -/
def pyLower (s : String) : String := String.mk (s.data.map Char.toLower)

/-- Python `s.split("@")[0]`: everything before the first `@` (used for the
`/command@botname` form). -/
def beforeAt (s : String) : String :=
  String.mk (s.data.takeWhile (fun c => c ≠ '@'))

/-- Python `text.startswith("/")`. -/
def startsWithSlash (s : String) : Bool :=
  match s.data with
  | [] => false
  | c :: _ => c = '/'

/-- `handle_settings_command` (bot.py): reply only, no state change. -/
def handle_settings_command (st : BotState) : BotState × List String :=
  (st, ["⚙️ *Current Settings*"])

/-- `handle_help_command` (bot.py): reply only, no state change. -/
def handle_help_command (st : BotState) : BotState × List String :=
  (st, ["🤖 *Monk Bot Commands*"])

/-- `handle_status_command` (bot.py): reply only, no state change. -/
def handle_status_command (st : BotState) : BotState × List String :=
  (st, ["📊 *Bot Status*"])

/-- `handle_interval_command` (bot.py): parse `args[0]` as an int, check
the 60..3600 range, and set `settings["scan_interval"]`. -/
def handle_interval_command (parseInt : String → Option ℤ)
    (args : List String) (st : BotState) : BotState × List String :=
  match args with
  | [] => (st, ["❌ Usage: `/interval <seconds>`"])
  | a :: _ =>
    match parseInt a with
    | none => (st, ["❌ Invalid number. Usage: `/interval <seconds>`"])
    | some new_interval =>
      if new_interval < 60 then (st, ["❌ Minimum interval is 60 seconds"])
      else if 3600 < new_interval then
        (st, ["❌ Maximum interval is 3600 seconds (1 hour)"])
      else
        ({ st with settings := { st.settings with scan_interval := new_interval } },
         ["✅ Scan interval set"])

/-- `handle_threshold_command` (bot.py): needs a sub-command and a float
value; the value range is checked before the sub-command name, exactly as
in the source. -/
def handle_threshold_command (parseFloat : String → Option ℚ)
    (args : List String) (st : BotState) : BotState × List String :=
  match args with
  | [] => (st, ["❌ Usage: `/threshold <type> <value>`"])
  | [_] => (st, ["❌ Please provide a value. Example: `/threshold entry 2.5`"])
  | a0 :: a1 :: _ =>
    let threshold_type := pyLower a0
    match parseFloat a1 with
    | none => (st, ["❌ Invalid number"])
    | some value =>
      if value ≤ 0 then (st, ["❌ Threshold must be positive"])
      else if 20 < value then (st, ["❌ Maximum threshold is 20%"])
      else if threshold_type = "entry" then
        ({ st with settings := { st.settings with entry_threshold := value } },
         ["✅ Entry threshold set"])
      else if threshold_type = "exit" then
        ({ st with settings := { st.settings with exit_threshold := value } },
         ["✅ Exit threshold set"])
      else if threshold_type = "invalid" ∨ threshold_type = "invalidation" then
        ({ st with settings := { st.settings with invalidation_threshold := value } },
         ["✅ Invalidation threshold set"])
      else
        (st, ["❌ Unknown threshold type. Use: `entry`, `exit`, or `invalid`"])

/-- `handle_lookback_command` (bot.py): parse `args[0]` as an int, check
the 1..24 range, set `settings["lookback_hours"]` and clear
`price_history`. -/
def handle_lookback_command (parseInt : String → Option ℤ)
    (args : List String) (st : BotState) : BotState × List String :=
  match args with
  | [] => (st, ["📊 Current lookback"])
  | a :: _ =>
    match parseInt a with
    | none => (st, ["❌ Invalid number. Usage: `/lookback <hours>`"])
    | some new_lookback =>
      if new_lookback < 1 then (st, ["❌ Minimum lookback is 1 hour"])
      else if 24 < new_lookback then (st, ["❌ Maximum lookback is 24 hours"])
      else
        ({ st with
            settings := { st.settings with lookback_hours := new_lookback }
            price_history := [] },
         ["✅ Lookback changed"])

/-- The body of the `for update in updates` loop of `process_commands`
(bot.py) for a single update: authorization check
(`chat_id == TELEGRAM_CHAT_ID or chat_id == user_id`), the `/` check,
tokenisation, and dispatch.  An unauthorized update or a non-command text
is skipped with `continue` (no reply); an unknown command falls through
the `elif` chain (no reply). -/
def process_update (TELEGRAM_CHAT_ID : String)
    (parseInt : String → Option ℤ) (parseFloat : String → Option ℚ)
    (u : Update) (st : BotState) : BotState × List String :=
  let is_authorized := u.chat_id = TELEGRAM_CHAT_ID ∨ u.chat_id = u.user_id
  if ¬ is_authorized then (st, [])
  else if ¬ startsWithSlash u.text then (st, [])
  else
    match pySplit u.text with
    | [] => (st, [])
    | cmd0 :: args =>
      let command := beforeAt (pyLower cmd0)
      if command = "/settings" then handle_settings_command st
      else if command = "/interval" then handle_interval_command parseInt args st
      else if command = "/threshold" then handle_threshold_command parseFloat args st
      else if command = "/help" then handle_help_command st
      else if command = "/status" then handle_status_command st
      else if command = "/lookback" then handle_lookback_command parseInt args st
      else if command = "/start" then handle_help_command st
      else (st, [])

/-! ## Concrete test data -/

/-- Ninety-one price points at one-minute spacing (minutes 0..90), the
history of the pruning scenario of §8 of the spec. -/
def hist91 : List PricePoint :=
  (List.range 91).map (fun m => ⟨(m : ℚ) * 60, 1, 1⟩)

/-! ## Lemmas about the lookback scan loop -/

/-- If every remaining point is at least `d` away, the scan keeps the
accumulator. -/
theorem lookbackScan_of_all_ge (target : ℚ) (l : List PricePoint)
    (best : Option PricePoint) (d : ℚ)
    (hall : ∀ p ∈ l, d ≤ lbDist target p) :
    lookbackScan target l best d = best := by
  induction l generalizing best d with
  | nil => rfl
  | cons x rest ih =>
    have hx : d ≤ lbDist target x := hall x (by simp)
    rw [lookbackScan, if_neg (by simpa [lbDist] using not_lt.mpr hx)]
    exact ih best d (fun p hp => hall p (List.mem_cons_of_mem _ hp))

/-- Once the accumulator holds a point, the scan returns a point. -/
theorem lookbackScan_isSome (target : ℚ) (l : List PricePoint)
    (x : PricePoint) (d : ℚ) :
    ∃ q, lookbackScan target l (some x) d = some q := by
  induction l generalizing x d with
  | nil => exact ⟨x, rfl⟩
  | cons y rest ih =>
    rw [lookbackScan]
    by_cases hy : |y.timestamp - target| < d
    · rw [if_pos hy]; exact ih y _
    · rw [if_neg hy]; exact ih x d

/-- The scan starting from an empty accumulator returns nothing exactly
when no point is strictly within the tolerance. -/
theorem lookbackScan_none_iff (target : ℚ) (l : List PricePoint) (d : ℚ) :
    lookbackScan target l none d = none ↔ ∀ p ∈ l, d ≤ lbDist target p := by
  constructor
  · intro h
    induction l generalizing d with
    | nil => intro p hp; exact absurd hp (List.not_mem_nil p)
    | cons x rest ih =>
      rw [lookbackScan] at h
      by_cases hx : |x.timestamp - target| < d
      · rw [if_pos hx] at h
        obtain ⟨q, hq⟩ := lookbackScan_isSome target rest x _
        rw [h] at hq; exact absurd hq (by simp)
      · rw [if_neg hx] at h
        intro p hp
        rcases List.mem_cons.mp hp with rfl | hp
        · simpa [lbDist] using not_lt.mp hx
        · exact ih d h p hp
  · exact lookbackScan_of_all_ge target l none d

/-- Characterisation of a successful scan: the returned point either was
the accumulator (and nothing beat it), or it sits in the list strictly
within the running tolerance, every earlier point is strictly farther and
every later one at least as far. -/
theorem lookbackScan_eq_some (target : ℚ) (l : List PricePoint)
    (best : Option PricePoint) (d : ℚ) (p : PricePoint)
    (h : lookbackScan target l best d = some p) :
    (best = some p ∧ ∀ q ∈ l, d ≤ lbDist target q) ∨
    (∃ l1 l2, l = l1 ++ p :: l2 ∧ lbDist target p < d ∧
      (∀ q ∈ l1, lbDist target p < lbDist target q) ∧
      (∀ q ∈ l2, lbDist target p ≤ lbDist target q)) := by
  induction l generalizing best d with
  | nil =>
    left
    refine ⟨h, fun q hq => absurd hq (List.not_mem_nil q)⟩
  | cons x rest ih =>
    rw [lookbackScan] at h
    by_cases hx : |x.timestamp - target| < d
    · rw [if_pos hx] at h
      rcases ih (some x) _ h with ⟨heq, hall⟩ | ⟨l1, l2, hsplit, hlt, h1, h2⟩
      · obtain rfl : x = p := Option.some.inj heq
        right
        exact ⟨[], rest, by simp, by simpa [lbDist] using hx,
          fun q hq => absurd hq (List.not_mem_nil q), hall⟩
      · right
        refine ⟨x :: l1, l2, by simp [hsplit], ?_, ?_, h2⟩
        · exact hlt.trans (by simpa [lbDist] using hx)
        · intro q hq
          rcases List.mem_cons.mp hq with rfl | hq
          · exact hlt.trans_le (by simp [lbDist])
          · exact h1 q hq
    · rw [if_neg hx] at h
      rcases ih best d h with ⟨heq, hall⟩ | ⟨l1, l2, hsplit, hlt, h1, h2⟩
      · left
        refine ⟨heq, fun q hq => ?_⟩
        rcases List.mem_cons.mp hq with rfl | hq
        · simpa [lbDist] using not_lt.mp hx
        · exact hall q hq
      · right
        refine ⟨x :: l1, l2, by simp [hsplit], hlt, ?_, h2⟩
        intro q hq
        rcases List.mem_cons.mp hq with rfl | hq
        · exact hlt.trans_le (by simpa [lbDist] using not_lt.mp hx)
        · exact h1 q hq

/-! ## C3: lookback resolver -/

/-- C3: `get_lookback_price` returns no point exactly when no stored point
is strictly within the 30-minute tolerance of `now - lookback_hours`
(in particular on an empty history), and a returned point is strictly
within tolerance, minimises the timestamp distance, and is the first point
in storage order among the minimisers (every earlier point is strictly
farther, every later point no closer). -/
theorem get_lookback_price_spec (hours : ℤ) (history : List PricePoint)
    (now : ℚ) :
    (get_lookback_price hours history now = none ↔
      ∀ q ∈ history, 30 * 60 ≤ lbDist (now - (hours : ℚ) * 3600) q) ∧
    (∀ p, get_lookback_price hours history now = some p →
      lbDist (now - (hours : ℚ) * 3600) p < 30 * 60 ∧
      ∃ l1 l2, history = l1 ++ p :: l2 ∧
        (∀ q ∈ l1,
          lbDist (now - (hours : ℚ) * 3600) p < lbDist (now - (hours : ℚ) * 3600) q) ∧
        (∀ q ∈ l2,
          lbDist (now - (hours : ℚ) * 3600) p ≤ lbDist (now - (hours : ℚ) * 3600) q)) := by
  constructor
  · exact lookbackScan_none_iff (now - (hours : ℚ) * 3600) history (30 * 60)
  · intro p hp
    rcases lookbackScan_eq_some (now - (hours : ℚ) * 3600) history none (30 * 60) p hp with
      ⟨heq, _⟩ | ⟨l1, l2, hsplit, hlt, h1, h2⟩
    · exact absurd heq (by simp)
    · exact ⟨hlt, l1, l2, hsplit, h1, h2⟩

/-- Witness for C3, the scenario of §8 of the spec: only points at
`now-65min` and `now-10min`, lookback 1h — the resolver picks the
`now-65min` point (5 minutes from target, inside tolerance). -/
theorem get_lookback_price_spec_witness :
    get_lookback_price 1 [⟨-3900, 1, 1⟩, ⟨-600, 1, 1⟩] 0 = some ⟨-3900, 1, 1⟩ ∧
    lbDist (0 - (1 : ℚ) * 3600) ⟨-3900, 1, 1⟩ < 30 * 60 := by
  have h :=
    (get_lookback_price_spec 1 [⟨-3900, 1, 1⟩, ⟨-600, 1, 1⟩] 0).2
      ⟨-3900, 1, 1⟩ (by decide)
  exact ⟨by decide, h.1⟩

/-! ## C6: pruning -/

/-- C6: `prune_history` keeps exactly the points with
`timestamp ≥ now - (lookback_hours + 30min)`, and the survivors keep their
relative order and positions (the result is a sublist of the input). -/
theorem prune_history_spec (hours : ℤ) (history : List PricePoint) (now : ℚ) :
    (∀ p, p ∈ prune_history hours history now ↔
      p ∈ history ∧
        now - ((hours : ℚ) * 3600 + HISTORY_BUFFER_MINUTES * 60) ≤ p.timestamp) ∧
    (prune_history hours history now).Sublist history := by
  constructor
  · intro p
    simp [prune_history, List.mem_filter]
  · exact List.filter_sublist _

/-- Witness for C6, the scenario of §8 of the spec: points at one-minute
spacing for 90 minutes with lookback 1h; at `now = 91min` the point at
minute 0 is pruned and the point at minute 1 survives. -/
theorem prune_history_spec_witness :
    (⟨0, 1, 1⟩ : PricePoint) ∉ prune_history 1 hist91 5460 ∧
    (⟨60, 1, 1⟩ : PricePoint) ∈ prune_history 1 hist91 5460 := by
  constructor
  · intro hm
    have h := ((prune_history_spec 1 hist91 5460).1 ⟨0, 1, 1⟩).mp hm
    exact absurd h.2 (by norm_num [HISTORY_BUFFER_MINUTES])
  · exact ((prune_history_spec 1 hist91 5460).1 ⟨60, 1, 1⟩).mpr
      ⟨by decide, by norm_num [HISTORY_BUFFER_MINUTES]⟩

/-! ## C9: return calculator identity -/

/-- C9: with identical current and reference prices the calculator returns
`(0, 0, 0)` for every nonzero price. -/
theorem compute_returns_identity (p : ℚ) (_hp : p ≠ 0) :
    compute_returns p p p p = (0, 0, 0) := by
  simp [compute_returns]

/-- Witness for C9 at the concrete price 3. -/
theorem compute_returns_identity_witness :
    (3 : ℚ) ≠ 0 ∧ compute_returns 3 3 3 3 = (0, 0, 0) :=
  ⟨by norm_num, compute_returns_identity 3 (by norm_num)⟩

/-! ## C10: freshness boundary -/

/-- C10: `is_data_fresh` accepts exactly when both ages are at most the
freshness threshold (10 minutes); an age exactly equal to the threshold is
fresh, and future timestamps (negative ages) are always fresh. -/
theorem is_data_fresh_spec (now btc_updated eth_updated : ℚ) :
    (is_data_fresh now btc_updated eth_updated = true ↔
      now - btc_updated ≤ FRESHNESS_THRESHOLD_MINUTES * 60 ∧
      now - eth_updated ≤ FRESHNESS_THRESHOLD_MINUTES * 60) ∧
    (now ≤ btc_updated → now ≤ eth_updated →
      is_data_fresh now btc_updated eth_updated = true) := by
  have key : is_data_fresh now btc_updated eth_updated = true ↔
      now - btc_updated ≤ FRESHNESS_THRESHOLD_MINUTES * 60 ∧
      now - eth_updated ≤ FRESHNESS_THRESHOLD_MINUTES * 60 := by
    simp only [is_data_fresh]
    split_ifs with h1 h2
    · exact ⟨fun hc => hc.elim, fun hab => absurd hab.1 (by linarith)⟩
    · exact ⟨fun hc => hc.elim, fun hab => absurd hab.2 (by linarith)⟩
    · exact ⟨fun _ => ⟨by linarith, by linarith⟩, fun _ => rfl⟩
  refine ⟨key, fun h1 h2 => key.mpr ⟨?_, ?_⟩⟩ <;>
    norm_num [FRESHNESS_THRESHOLD_MINUTES] <;> linarith

/-- Witness for C10: an age exactly equal to the 10-minute threshold is
accepted. -/
theorem is_data_fresh_spec_witness : is_data_fresh 600 0 0 = true :=
  (is_data_fresh_spec 600 0 0).1.mpr
    ⟨by norm_num [FRESHNESS_THRESHOLD_MINUTES],
     by norm_num [FRESHNESS_THRESHOLD_MINUTES]⟩

/-! ## C7: mode/strategy invariant -/

/-- C7: `active_strategy = NONE ↔ mode = SCAN` holds initially and is
preserved by every call of `evaluate_and_transition`, for every gap and
every threshold settings. -/
theorem signalInvariant_preserved :
    signalInvariant initialSignalState ∧
    ∀ (st : Settings) (s : SignalState) (gap : ℚ),
      signalInvariant s → signalInvariant (evaluate_and_transition st s gap).1 := by
  constructor
  · simp [signalInvariant, initialSignalState]
  · intro st s gap hinv
    obtain ⟨mode, strat⟩ := s
    cases mode <;>
      simp only [evaluate_and_transition] <;>
      split_ifs <;>
      simp_all [signalInvariant]

/-- Witness for C7: the invariant after a concrete ENTRY transition. -/
theorem signalInvariant_preserved_witness :
    signalInvariant
      (evaluate_and_transition defaultSettings initialSignalState (5/2)).1 :=
  signalInvariant_preserved.2 defaultSettings initialSignalState (5/2)
    (by simp [signalInvariant, initialSignalState])

/-! ## C1: the transition table

The source compares `float(gap)` — the binary64 conversion of the Decimal
gap (`gap_float = float(gap)`, bot.py) — against the thresholds, so the
transition table holds with the comparisons applied to `floatOfRat gap`;
applied to the exact gap itself it fails at boundary values. -/

/-- Counterexample to C1 as stated: in `TRACK(S1)` with the default
thresholds (`exit = 0.5`, `invalidation = 4.0`) and the Decimal gap
`0.50000000000000000001`, the claim's case (4) applies to the exact gap
(`|gap| > exit_threshold`, not at the invalidation side), so the claim
predicts no transition and no event — but the code rounds the gap to the
float `0.5`, fires the exit check, and emits an EXIT event. -/
theorem evaluate_and_transition_counterexample :
    defaultSettings.exit_threshold < |(1/2 + 1/10000000000000000000 : ℚ)| ∧
    (1/2 + 1/10000000000000000000 : ℚ) < defaultSettings.invalidation_threshold ∧
    evaluate_and_transition defaultSettings ⟨Mode.TRACK, some Strategy.S1⟩
        (1/2 + 1/10000000000000000000)
      = (⟨Mode.SCAN, none⟩, some SignalEvent.EXIT) := by
  refine ⟨?_, by norm_num [defaultSettings, INVALIDATION_THRESHOLD], by decide⟩
  rw [abs_of_pos (show (0:ℚ) < 1/2 + 1/10000000000000000000 by norm_num)]
  norm_num [defaultSettings, EXIT_THRESHOLD]

/-- C1 as amended: the transition table exactly as claimed, with every
threshold comparison applied to the binary64 conversion `floatOfRat gap`
of the gap (the value `gap_float` the source actually compares).  In SCAN,
entry checks in order; in TRACK, exit first, then the strategy-matching
invalidation side, otherwise no transition and no event — in particular a
gap on the opposite side from the tracked strategy's invalidation side,
outside the exit band, changes nothing.  Exactly one event or none is
emitted per call (the result holds one `Option SignalEvent`). -/
theorem evaluate_and_transition_spec (st : Settings) (s : SignalState)
    (gap : ℚ) (hE : 0 < st.entry_threshold) :
    (s.current_mode = Mode.SCAN →
      ((st.entry_threshold ≤ floatOfRat gap →
        evaluate_and_transition st s gap
          = (⟨Mode.TRACK, some Strategy.S1⟩, some (SignalEvent.ENTRY Strategy.S1))) ∧
       (floatOfRat gap ≤ -st.entry_threshold →
        evaluate_and_transition st s gap
          = (⟨Mode.TRACK, some Strategy.S2⟩, some (SignalEvent.ENTRY Strategy.S2))) ∧
       (-st.entry_threshold < floatOfRat gap → floatOfRat gap < st.entry_threshold →
        evaluate_and_transition st s gap = (s, none)))) ∧
    (∀ strat, s = ⟨Mode.TRACK, some strat⟩ →
      ((|floatOfRat gap| ≤ st.exit_threshold →
        evaluate_and_transition st s gap
          = (⟨Mode.SCAN, none⟩, some SignalEvent.EXIT)) ∧
       (st.exit_threshold < |floatOfRat gap| → strat = Strategy.S1 →
        st.invalidation_threshold ≤ floatOfRat gap →
        evaluate_and_transition st s gap
          = (⟨Mode.SCAN, none⟩, some (SignalEvent.INVALIDATION Strategy.S1))) ∧
       (st.exit_threshold < |floatOfRat gap| → strat = Strategy.S2 →
        floatOfRat gap ≤ -st.invalidation_threshold →
        evaluate_and_transition st s gap
          = (⟨Mode.SCAN, none⟩, some (SignalEvent.INVALIDATION Strategy.S2))) ∧
       (st.exit_threshold < |floatOfRat gap| →
        ¬(strat = Strategy.S1 ∧ st.invalidation_threshold ≤ floatOfRat gap) →
        ¬(strat = Strategy.S2 ∧ floatOfRat gap ≤ -st.invalidation_threshold) →
        evaluate_and_transition st s gap = (s, none)))) := by
  obtain ⟨mode, strat0⟩ := s
  constructor
  · rintro rfl
    have hscan : evaluate_and_transition st ⟨Mode.SCAN, strat0⟩ gap =
        (if st.entry_threshold ≤ floatOfRat gap then
          (⟨Mode.TRACK, some Strategy.S1⟩, some (SignalEvent.ENTRY Strategy.S1))
        else if floatOfRat gap ≤ -st.entry_threshold then
          (⟨Mode.TRACK, some Strategy.S2⟩, some (SignalEvent.ENTRY Strategy.S2))
        else (⟨Mode.SCAN, strat0⟩, none)) := rfl
    refine ⟨fun h1 => ?_, fun h2 => ?_, fun h3 h4 => ?_⟩
    · rw [hscan, if_pos h1]
    · rw [hscan, if_neg (by push_neg; linarith), if_pos h2]
    · rw [hscan, if_neg (by push_neg; linarith), if_neg (by push_neg; linarith)]
  · intro strat hs
    injection hs with h1 h2
    subst h1; subst h2
    have htrack : evaluate_and_transition st ⟨Mode.TRACK, some strat⟩ gap =
        (if |floatOfRat gap| ≤ st.exit_threshold then
          (⟨Mode.SCAN, none⟩, some SignalEvent.EXIT)
        else if some strat = some Strategy.S1 ∧
            st.invalidation_threshold ≤ floatOfRat gap then
          (⟨Mode.SCAN, none⟩, some (SignalEvent.INVALIDATION Strategy.S1))
        else if some strat = some Strategy.S2 ∧
            floatOfRat gap ≤ -st.invalidation_threshold then
          (⟨Mode.SCAN, none⟩, some (SignalEvent.INVALIDATION Strategy.S2))
        else (⟨Mode.TRACK, some strat⟩, none)) := rfl
    refine ⟨fun h1 => ?_, fun h2 hS1 h2b => ?_, fun h3 hS2 h3b => ?_,
      fun h4 h4a h4b => ?_⟩
    · rw [htrack, if_pos h1]
    · subst hS1
      rw [htrack, if_neg (by push_neg; linarith), if_pos ⟨rfl, h2b⟩]
    · subst hS2
      rw [htrack, if_neg (by push_neg; linarith),
        if_neg (by rintro ⟨hc, -⟩; exact Strategy.noConfusion (Option.some.inj hc)),
        if_pos ⟨rfl, h3b⟩]
    · rw [htrack, if_neg (by push_neg; linarith),
        if_neg (by rintro ⟨hc, hgc⟩; exact h4a ⟨Option.some.inj hc, hgc⟩),
        if_neg (by rintro ⟨hc, hgc⟩; exact h4b ⟨Option.some.inj hc, hgc⟩)]

/-- Witness for C1 (amended), the §8 scenario `gap = +2.5` from SCAN with
default thresholds: transition to `TRACK(S1)` emitting `ENTRY(S1)`. -/
theorem evaluate_and_transition_spec_witness :
    evaluate_and_transition defaultSettings initialSignalState (5/2)
      = (⟨Mode.TRACK, some Strategy.S1⟩, some (SignalEvent.ENTRY Strategy.S1)) :=
  ((evaluate_and_transition_spec defaultSettings initialSignalState (5/2)
      (by norm_num [defaultSettings, ENTRY_THRESHOLD])).1 rfl).1 (by decide)

/-! ## C2: exact decimal arithmetic vs the float comparison -/

/-- Counterexample to C2: with reference prices `1, 1` and current prices
`1, 1.01999999999999999999` (all exactly representable in 28-digit Decimal,
so the Decimal computation is exact), `compute_returns` yields the exact
gap `2 - 10⁻¹⁸`, which is strictly below the default entry threshold `2` —
the exact-rational comparison decides "stay in SCAN, no event" — yet the
machine converts the gap to the float `2.0` and fires `ENTRY(S1)`. -/
theorem compute_returns_float_counterexample :
    (compute_returns 1 (101999999999999999999/100000000000000000000) 1 1).2.2
      = 2 - 1/1000000000000000000 ∧
    (2 - 1/1000000000000000000 : ℚ) < defaultSettings.entry_threshold ∧
    evaluateExactGap defaultSettings initialSignalState
        (2 - 1/1000000000000000000)
      = (initialSignalState, none) ∧
    evaluate_and_transition defaultSettings initialSignalState
        (2 - 1/1000000000000000000)
      = (⟨Mode.TRACK, some Strategy.S1⟩, some (SignalEvent.ENTRY Strategy.S1)) := by
  refine ⟨by decide, by norm_num [defaultSettings, ENTRY_THRESHOLD], by decide, by decide⟩

/-- C2 as amended: the returns and the gap are computed in Decimal
arithmetic (modelled exactly), but the state machine compares the binary64
conversion `float(gap)` against the thresholds; hence its decision agrees
with the exact-rational decision whenever the gap is exactly
float-representable (`floatOfRat gap = gap`), and can differ at boundary
gaps (see the counterexample). -/
theorem evaluate_agrees_on_representable (st : Settings) (s : SignalState)
    (gap : ℚ) (h : floatOfRat gap = gap) :
    evaluate_and_transition st s gap = evaluateExactGap st s gap := by
  simp only [evaluate_and_transition, evaluateExactGap, h]

/-- Witness for C2 (amended) at the float-representable gap `2.5`. -/
theorem evaluate_agrees_on_representable_witness :
    evaluate_and_transition defaultSettings ⟨Mode.TRACK, some Strategy.S2⟩ (5/2)
      = evaluateExactGap defaultSettings ⟨Mode.TRACK, some Strategy.S2⟩ (5/2) :=
  evaluate_agrees_on_representable defaultSettings ⟨Mode.TRACK, some Strategy.S2⟩
    (5/2) (by decide)

/-! ## C4: display clamp -/

/-- Counterexample to C4: the claim says the value `-0.05` renders as
`"+0.0"`, but `format_value` clamps on `abs(float(v)) < float(0.05)`, the
two sides are equal for `v = -0.05`, so the value is not clamped and
renders as `"-0.1"` (the binary64 value of `0.05` is slightly above 1/20,
so its magnitude rounds up to one decimal). -/
theorem format_value_counterexample :
    format_value (-(1/20)) = "-0.1" ∧ format_value (-(1/20)) ≠ "+0.0" := by
  exact ⟨by decide, by decide⟩

/-- C4 as amended: the clamp compares the binary64 conversion of the value
against the binary64 value of `0.05` (≈ 0.0500000000000000028): every value
whose conversion has magnitude strictly below it renders as `"+0.0"`; the
value `0.05` is not clamped and renders as `"+0.1"`, and `-0.05` is not
clamped either and renders as `"-0.1"` (the sign is explicit in both
non-clamped renderings). -/
theorem format_value_spec :
    (∀ v : ℚ, |floatOfRat v| < floatOfRat (1/20) → format_value v = "+0.0") ∧
    format_value (1/20) = "+0.1" ∧ format_value (-(1/20)) = "-0.1" := by
  refine ⟨fun v hv => ?_, by decide, by decide⟩
  simp only [format_value]
  rw [if_pos hv]

/-- Witness for C4 (amended): the value 0.04 is clamped to `"+0.0"`. -/
theorem format_value_spec_witness : format_value (1/25) = "+0.0" :=
  format_value_spec.1 (1/25) (by decide)

/-! ## C5: command rejection -/

/-- Counterexample to C5: an unauthorized command (chat `999`, neither the
configured destination `111` nor a DM from the sender `123`) is skipped
with `continue` — no reply of any kind is sent, contradicting the claimed
user-visible error reply.  (The state is indeed unchanged.) -/
theorem process_update_unauthorized_counterexample :
    ¬(("999" : String) = "111" ∨ ("999" : String) = "123") ∧
    process_update "111" (fun _ => none) (fun _ => none)
        ⟨"999", "123", "/interval 10"⟩ ⟨defaultSettings, [], Mode.SCAN, none⟩
      = (⟨defaultSettings, [], Mode.SCAN, none⟩, []) := by
  exact ⟨by decide, by decide⟩

/-- C5 as amended: an unauthorized message is silently ignored — no reply
and no state change; an authorized but malformed mutating command (bad
number, i.e. the parse fails; out-of-range value; or unknown sub-command
for `/threshold`) produces an explanatory reply and leaves the whole state
(Settings, history, mode, strategy) unchanged.  `pI` / `pF` stand for
Python `int(...)` / `float(...)` parsing, `none` modelling `ValueError`. -/
theorem command_rejection_spec (cfg : String)
    (pI : String → Option ℤ) (pF : String → Option ℚ)
    (u : Update) (st : BotState) :
    (¬(u.chat_id = cfg ∨ u.chat_id = u.user_id) →
      process_update cfg pI pF u st = (st, [])) ∧
    (∀ args, (match args with
        | [] => True
        | a :: _ => pI a = none ∨ ∃ n, pI a = some n ∧ (n < 60 ∨ 3600 < n)) →
      (handle_interval_command pI args st).1 = st ∧
      (handle_interval_command pI args st).2 ≠ []) ∧
    (∀ args, (match args with
        | [] => True
        | [_] => True
        | a0 :: a1 :: _ =>
          pF a1 = none ∨ ∃ v, pF a1 = some v ∧
            (v ≤ 0 ∨ 20 < v ∨
              (pyLower a0 ≠ "entry" ∧ pyLower a0 ≠ "exit" ∧
               pyLower a0 ≠ "invalid" ∧ pyLower a0 ≠ "invalidation"))) →
      (handle_threshold_command pF args st).1 = st ∧
      (handle_threshold_command pF args st).2 ≠ []) ∧
    (∀ args, (match args with
        | [] => True
        | a :: _ => pI a = none ∨ ∃ n, pI a = some n ∧ (n < 1 ∨ 24 < n)) →
      (handle_lookback_command pI args st).1 = st ∧
      (handle_lookback_command pI args st).2 ≠ []) := by
  refine ⟨fun hna => ?_, fun args hm => ?_, fun args hm => ?_, fun args hm => ?_⟩
  · simp only [process_update]
    rw [if_pos hna]
  · match args with
    | [] => exact ⟨rfl, by simp [handle_interval_command]⟩
    | a :: rest =>
      rcases hm with hp | ⟨n, hp, hr⟩
      · simp [handle_interval_command, hp]
      · simp only [handle_interval_command, hp]
        rcases hr with hr | hr
        · rw [if_pos hr]
          exact ⟨rfl, by simp⟩
        · rw [if_neg (by omega), if_pos hr]
          exact ⟨rfl, by simp⟩
  · match args with
    | [] => exact ⟨rfl, by simp [handle_threshold_command]⟩
    | [a] => exact ⟨rfl, by simp [handle_threshold_command]⟩
    | a0 :: a1 :: rest =>
      rcases hm with hp | ⟨v, hp, hr⟩
      · simp [handle_threshold_command, hp]
      · simp only [handle_threshold_command, hp]
        rcases hr with hr | hr | ⟨he, hx, hi, hiv⟩
        · rw [if_pos hr]
          exact ⟨rfl, by simp⟩
        · rw [if_neg (by linarith), if_pos hr]
          exact ⟨rfl, by simp⟩
        · split_ifs <;> simp_all
  · match args with
    | [] => exact ⟨rfl, by simp [handle_lookback_command]⟩
    | a :: rest =>
      rcases hm with hp | ⟨n, hp, hr⟩
      · simp [handle_lookback_command, hp]
      · simp only [handle_lookback_command, hp]
        rcases hr with hr | hr
        · rw [if_pos hr]
          exact ⟨rfl, by simp⟩
        · rw [if_neg (by omega), if_pos hr]
          exact ⟨rfl, by simp⟩

/-- Witness for C5 (amended): the unauthorized update is ignored without a
reply, and an authorized `/threshold entry abc` with an unparseable value
changes nothing and yields a reply. -/
theorem command_rejection_spec_witness :
    process_update "111" (fun _ => none) (fun _ => none)
        ⟨"999", "123", "/interval 10"⟩ ⟨defaultSettings, [], Mode.SCAN, none⟩
      = (⟨defaultSettings, [], Mode.SCAN, none⟩, []) ∧
    (handle_threshold_command (fun _ => none) ["entry", "abc"]
        ⟨defaultSettings, [], Mode.SCAN, none⟩).1
      = ⟨defaultSettings, [], Mode.SCAN, none⟩ ∧
    (handle_threshold_command (fun _ => none) ["entry", "abc"]
        ⟨defaultSettings, [], Mode.SCAN, none⟩).2 ≠ [] := by
  refine ⟨(command_rejection_spec "111" (fun _ => none) (fun _ => none)
      ⟨"999", "123", "/interval 10"⟩ ⟨defaultSettings, [], Mode.SCAN, none⟩).1
      (by decide), ?_, ?_⟩
  · exact ((command_rejection_spec "111" (fun _ => none) (fun _ => none)
      ⟨"999", "123", "/interval 10"⟩ ⟨defaultSettings, [], Mode.SCAN, none⟩).2.2.1
      ["entry", "abc"] (Or.inl rfl)).1
  · exact ((command_rejection_spec "111" (fun _ => none) (fun _ => none)
      ⟨"999", "123", "/interval 10"⟩ ⟨defaultSettings, [], Mode.SCAN, none⟩).2.2.1
      ["entry", "abc"] (Or.inl rfl)).2

/-! ## C8: lookback change clears history -/

/-- C8: a successful `/lookback` change to any hours in `[1, 24]` sets the
new lookback and empties the history, after which the lookback resolver
finds no reference point for any evaluation instant; an unparseable or
out-of-range argument leaves the whole state (setting and history)
unchanged. -/
theorem handle_lookback_spec (pI : String → Option ℤ) (a : String)
    (rest : List String) (st : BotState) :
    (∀ n, pI a = some n → 1 ≤ n → n ≤ 24 →
      (handle_lookback_command pI (a :: rest) st).1.settings.lookback_hours = n ∧
      (handle_lookback_command pI (a :: rest) st).1.price_history = [] ∧
      ∀ (hours : ℤ) (now : ℚ),
        get_lookback_price hours
          (handle_lookback_command pI (a :: rest) st).1.price_history now = none) ∧
    ((pI a = none ∨ ∃ n, pI a = some n ∧ (n < 1 ∨ 24 < n)) →
      (handle_lookback_command pI (a :: rest) st).1 = st) := by
  constructor
  · intro n hp h1 h24
    have hres : handle_lookback_command pI (a :: rest) st =
        ({ st with
            settings := { st.settings with lookback_hours := n }
            price_history := [] },
         ["✅ Lookback changed"]) := by
      simp only [handle_lookback_command, hp]
      rw [if_neg (by omega), if_neg (by omega)]
    rw [hres]
    exact ⟨rfl, rfl, fun hours now => rfl⟩
  · intro hbad
    rcases hbad with hp | ⟨n, hp, hr⟩
    · simp [handle_lookback_command, hp]
    · simp only [handle_lookback_command, hp]
      rcases hr with hr | hr
      · rw [if_pos hr]
      · rw [if_neg (by omega), if_pos hr]

/-- Witness for C8: changing lookback to 2 hours on a state with one stored
point clears the history and the resolver finds nothing afterwards. -/
theorem handle_lookback_spec_witness :
    (handle_lookback_command (fun s => if s = "2" then some 2 else none) ["2"]
      ⟨defaultSettings, [⟨0, 1, 1⟩], Mode.SCAN, none⟩).1.price_history = [] ∧
    get_lookback_price 2
      (handle_lookback_command (fun s => if s = "2" then some 2 else none) ["2"]
        ⟨defaultSettings, [⟨0, 1, 1⟩], Mode.SCAN, none⟩).1.price_history 7200
      = none := by
  have h := (handle_lookback_spec (fun s => if s = "2" then some 2 else none)
    "2" [] ⟨defaultSettings, [⟨0, 1, 1⟩], Mode.SCAN, none⟩).1 2
    (by decide) (by decide) (by decide)
  exact ⟨h.2.1, h.2.2 2 7200⟩

end MonkBot
